import Mathlib

/-!
Verification of the update-sequencing and edit-lifecycle logic of the
`jQuery.valueview` widget (src/src/jquery.valueview.valueview.js) and of the
`jQuery.valueview.Expert` base class (src/unnamed/part_001).

The development shallowly embeds the widget's state and its operations:

* `RTState` / `rtStep` — the asynchronous parse/format round-trip controller:
  `_parseValue` (lines 763-826), the continuations installed by `_updateValue`
  (lines 704-736), `_formatValue` (lines 870-893) and `_updateTextValue`
  (lines 906-936).  Asynchronous callbacks become explicit events delivered to
  a step function; pending `setTimeout` timers and in-flight backend requests
  are tracked explicitly so that only responses to actually dispatched
  requests can arrive.
* `VV.VState` and `VV.startEditing` / `VV.stopEditing` / `VV.cancelEditing` /
  `VV.value` / `VV.setValue` / `VV.draw` — the edit-mode state machine and
  value accessors (lines 274-461, 580-658), with the widget's DOM `element`
  children modelled as a list of nodes so that `element.html(...)` and
  `$value.detach()` are observable.
* `ExpertRefs` / `Expert_destroy` — the Expert base-class `destroy`
  (src/unnamed/part_001, lines 210-221).

JavaScript specifics are modelled explicitly: `undefined` and `null` become
`Option.none` in the respective fields, `JSON.stringify(v.toJSON())` becomes
the `json` field of a `DataValue`, and JavaScript object identity (the
semantics of strict equality on objects) becomes equality of an explicit
`ref` field carried by every `DataValue`.
-/

/-- A `dataValues.DataValue` instance.  `ref` stands for the JavaScript object
identity (two distinct objects have distinct `ref`s even when structurally
equal); `dvType` is `getType()`; `json` is `JSON.stringify(v.toJSON())`, the
serialized form that `_setValue` (line 431) compares. -/
structure DataValue where
  ref : Nat
  dvType : String
  json : String
deriving DecidableEq, Repr

/-- JavaScript strict equality on `DataValue` objects: object identity. -/
def jsIdentical (a b : DataValue) : Bool :=
  a.ref == b.ref

/-- A raw value as returned by `Expert.rawValue()`: a string, `null`, or
already a structured `DataValue` (rich editing surfaces). -/
inductive RawValue
  | str (s : String)
  | dvRaw (d : DataValue)
  | nullRaw
deriving DecidableEq, Repr

/-- State of the asynchronous parse/format round-trip controller, projecting
the widget fields that the controller reads and writes.

* `value`, `formattedValue`, `textValue` — `_value`, `_formattedValue`,
  `_textValue`.
* `lastUpdateValue` — `__lastUpdateValue` (`none` models `undefined`).
* `parseTimer` — the pending `setTimeout` from `_parseValue`, carrying the
  raw value captured by the timer closure and the delay it was scheduled
  with; `none` when no timer is pending.
* `inflightParses` — raw values of `valueParser.parse` requests dispatched to
  the parser service and not yet answered.
* `inflightFormats`, `inflightTexts` — `DataValue`s of pending
  `valueFormatter.format(..., 'text/html')` resp. `'text/plain'` requests.
* `parseDelay` — the `parseDelay` option. -/
structure RTState where
  value : Option DataValue
  formattedValue : Option String
  textValue : Option String
  lastUpdateValue : Option String
  parseTimer : Option (String × Nat)
  inflightParses : List String
  inflightFormats : List DataValue
  inflightTexts : List DataValue
  parseDelay : Nat
deriving DecidableEq, Repr

/-- Default of the `parseDelay` option (`options`, line 186). -/
def defaultParseDelay : Nat := 300

/-- What `_parseValue` does before returning its promise. -/
inductive ParseImmediate
  | resolvedNow (v : Option DataValue)
  | timerScheduled
deriving DecidableEq, Repr

/-- The synchronous part of `_parseValue` (lines 763-826).

* A raw value that is `null` or already a `DataValue` short-circuits (lines
  771-776): `__lastUpdateValue` is set to `undefined` and the deferred is
  resolved with the raw value before the function returns.  Note that a
  pending parse timer is NOT cancelled on this path.
* A string raw value clears any pending timer (lines 778-780) and schedules a
  new one with delay `parseDelay`, tagged with the raw value, after recording
  the raw value in `__lastUpdateValue` (line 784). -/
def parseValueStep (st : RTState) (raw : RawValue) : RTState × ParseImmediate :=
  match raw with
  | .nullRaw => ({ st with lastUpdateValue := none }, .resolvedNow none)
  | .dvRaw d => ({ st with lastUpdateValue := none }, .resolvedNow (some d))
  | .str s =>
      ({ st with lastUpdateValue := some s,
                 parseTimer := some (s, st.parseDelay) },
       .timerScheduled)

/-- The `done` continuation `_updateValue` installs on `_parseValue`'s promise
(lines 708-729): adopt the parsed value; when it is `null` clear the formatted
value, otherwise dispatch a `_formatValue` request for it. -/
def updateValueOnParsed (st : RTState) (parsed : Option DataValue) : RTState :=
  match parsed with
  | none => { st with value := none, formattedValue := none }
  | some d => { st with value := some d,
                        inflightFormats := d :: st.inflightFormats }

/-- The parser timer firing (`setTimeout` callback, lines 785-823): the parse
request tagged with the captured raw value is dispatched to the parser
service. -/
def onTimerFire (st : RTState) : RTState :=
  match st.parseTimer with
  | none => st
  | some (raw, _) =>
      { st with parseTimer := none, inflightParses := raw :: st.inflightParses }

/-- The parser's `done` callback (lines 796-816) composed with
`_updateValue`'s continuations.  When `__lastUpdateValue` is `undefined` (the
latest request was already answered) or differs from the raw value this
request was tagged with, the deferred is rejected without a message — the
unconditional `deferred.resolve` on line 815 is inert because a jQuery
deferred settles only once — and `_updateValue`'s `fail` handler, receiving
`undefined`, does nothing.  Otherwise `__lastUpdateValue` is reset to
`undefined` and the parsed value is adopted. -/
def onParseSuccess (st : RTState) (raw : String) (parsed : Option DataValue) :
    RTState :=
  if st.lastUpdateValue = none ∨ st.lastUpdateValue ≠ some raw then
    st
  else
    updateValueOnParsed { st with lastUpdateValue := none } parsed

/-- The parser's `fail` callback (lines 817-819) composed with
`_updateValue`'s `fail` handler (lines 730-735): with a message, the value is
cleared (and the error rendered, which the lifecycle model `onParseFail`
covers); without a message nothing happens.  Note the staleness tag is not
consulted on this path. -/
def onParseFailure (st : RTState) (message : Option String) : RTState :=
  match message with
  | some _ => { st with value := none }
  | none => st

/-- The formatter's `done` callback in `_formatValue` (lines 877-884)
composed with `_updateValue`'s continuation (lines 718-721): the response
carries the formatted text and echoes the `DataValue` it formatted
(`formattedDataValue`); the result is accepted exactly when the echoed value
is strictly equal (object identity) to the value the request was made with,
otherwise the deferred is rejected without a message ("Late response that
should be ignored").  The widget's current `_value` is not consulted. -/
def onFormatSuccess (st : RTState) (requested echoed : DataValue)
    (formatted : String) : RTState :=
  if jsIdentical requested echoed then
    { st with formattedValue := some formatted,
              inflightFormats := st.inflightFormats.erase requested }
  else
    { st with inflightFormats := st.inflightFormats.erase requested }

/-- The formatter's `fail` callback (lines 885-887) composed with
`_updateValue`'s handler (lines 722-727): with a message the formatted value
is cleared and the error rendered; without one nothing happens. -/
def onFormatFailure (st : RTState) (requested : DataValue)
    (message : Option String) : RTState :=
  match message with
  | some _ => { st with formattedValue := none,
                        inflightFormats := st.inflightFormats.erase requested }
  | none => { st with inflightFormats := st.inflightFormats.erase requested }

/-- The `'text/plain'` formatter's `done` callback in `_updateTextValue`
(lines 921-930): same echoed-value identity check as `_formatValue`; on a
match `_textValue` is set, otherwise the response is dropped. -/
def onTextSuccess (st : RTState) (requested echoed : DataValue)
    (txt : String) : RTState :=
  if jsIdentical requested echoed then
    { st with textValue := some txt,
              inflightTexts := st.inflightTexts.erase requested }
  else
    { st with inflightTexts := st.inflightTexts.erase requested }

/-- A raw-value change notification reaching `_updateValue` (line 1032):
`_parseValue` runs; when it resolved synchronously (raw value `null` or a
`DataValue`), the `done` continuation runs immediately upon being attached,
so the raw value is adopted in the same step. -/
def onChange (st : RTState) (raw : RawValue) : RTState :=
  match parseValueStep st raw with
  | (st1, .resolvedNow v) => updateValueOnParsed st1 v
  | (st1, .timerScheduled) => st1

/-- Events of the round-trip controller.  Response events name the request
they answer; `rtStep` guards them by the in-flight request lists, so only
responses to requests that were actually dispatched can be delivered. -/
inductive RTEvent
  | change (raw : RawValue)
  | timerFire
  | parseSuccess (raw : String) (parsed : Option DataValue)
  | parseFailure (raw : String) (message : Option String)
  | formatSuccess (requested echoed : DataValue) (formatted : String)
  | formatFailure (requested : DataValue) (message : Option String)
  | textSuccess (requested echoed : DataValue) (txt : String)
deriving DecidableEq, Repr

/-- One step of the round-trip controller. -/
def rtStep (st : RTState) : RTEvent → RTState
  | .change raw => onChange st raw
  | .timerFire => onTimerFire st
  | .parseSuccess raw parsed =>
      if raw ∈ st.inflightParses then
        onParseSuccess
          { st with inflightParses := st.inflightParses.erase raw } raw parsed
      else st
  | .parseFailure raw message =>
      if raw ∈ st.inflightParses then
        onParseFailure
          { st with inflightParses := st.inflightParses.erase raw } message
      else st
  | .formatSuccess requested echoed formatted =>
      if requested ∈ st.inflightFormats then
        onFormatSuccess st requested echoed formatted
      else st
  | .formatFailure requested message =>
      if requested ∈ st.inflightFormats then
        onFormatFailure st requested message
      else st
  | .textSuccess requested echoed txt =>
      if requested ∈ st.inflightTexts then
        onTextSuccess st requested echoed txt
      else st

/-- Run a sequence of events. -/
def rtRun (st : RTState) (evs : List RTEvent) : RTState :=
  evs.foldl rtStep st

/-- A freshly created widget's round-trip state. -/
def rtInit (delay : Nat) : RTState :=
  { value := none, formattedValue := none, textValue := none,
    lastUpdateValue := none, parseTimer := none,
    inflightParses := [], inflightFormats := [], inflightTexts := [],
    parseDelay := delay }

/-- The last raw value of the change sequence `s :: raws`. -/
def lastChange (s : String) (raws : List String) : String :=
  match raws with
  | [] => s
  | r :: rest => lastChange r rest

/-- The preview area of an `Expert` (its error/preview display; `preview` is
the surface `_renderError` writes to, line 746). -/
structure Preview where
  content : String
deriving DecidableEq, Repr

/-- The widget's current `Expert`, projected to the part the widget itself
touches: experts may or may not expose a `preview`. -/
structure ExpertObj where
  preview : Option Preview
deriving DecidableEq, Repr

/-- A child node of the widget's DOM `element`: the `$value` viewport that
hosts the editable surface, or statically rendered formatted content.  jQuery
`element.html(x)` replaces all children by `x`; `$value.detach()` removes the
viewport from its parent. -/
inductive ElementChild
  | editable
  | staticHtml (content : Option String)
deriving DecidableEq, Repr

/-- Side effects dispatched by the value setter, recorded in an append-only
log: `_updateExpertConstructor` (line 436), an asynchronous `_formatValue`
request (line 450), and a `draw` (lines 446, 453 and the edit-lifecycle
call sites). -/
inductive Effect
  | updateExpertCtor
  | formatRequest (d : DataValue)
  | drawCall
deriving DecidableEq, Repr

namespace VV

/-- Lifecycle state of a `valueview` widget instance.

* `value`, `formattedValue`, `textValue`, `initialValue`, `isInEditMode` —
  the fields of the same names (`_value`, `_formattedValue`, `_textValue`,
  `_initialValue`, `_isInEditMode`).
* `expert` — `_expert` (`none` outside edit mode).
* `children` — the widget `element`'s DOM children.
* `pendingEditDraws` — outstanding asynchronous `drawContent` continuations
  of the edit-mode branch (lines 612-632).
* `log` — append-only record of dispatched effects. -/
structure VState where
  value : Option DataValue
  formattedValue : Option String
  textValue : Option String
  initialValue : Option DataValue
  isInEditMode : Bool
  expert : Option ExpertObj
  children : List ElementChild
  pendingEditDraws : Nat
  log : List Effect
deriving DecidableEq, Repr

/-- Source `drawStaticContent` (lines 644-646): `element.html(getFormattedValue())`
replaces the element's children by the rendered formatted value. -/
def drawStaticContent (s : VState) : VState :=
  { s with children := [ElementChild.staticHtml s.formattedValue] }

/-- Source `draw` (lines 580-601) restricted to content (the css-class bookkeeping
on lines 585-595 is presentation only): in edit mode `drawContent` starts an
asynchronous continuation (`_updateTextValue().then(...)`, lines 612-632)
which does not touch the element's children; otherwise the static content is
rendered synchronously. -/
def draw (s : VState) : VState :=
  if s.isInEditMode then
    { s with pendingEditDraws := s.pendingEditDraws + 1,
             log := s.log ++ [Effect.drawCall] }
  else
    { drawStaticContent s with log := s.log ++ [Effect.drawCall] }

/-- Completion of one asynchronous edit-mode `drawContent` continuation
(lines 613-632): if edit mode was left while the text value was being
formatted, nothing happens (line 614-617); otherwise `_textValue` is updated
and `_updateExpert` ensures an expert exists, which then draws into the
`$value` viewport — the element's children are untouched either way. -/
def editDrawComplete (s : VState) (txt : Option String) : VState :=
  match s.pendingEditDraws with
  | 0 => s
  | n + 1 =>
      if s.isInEditMode then
        { s with pendingEditDraws := n, textValue := txt,
                 expert := some (match s.expert with
                                 | some e => e
                                 | none => { preview := none }) }
      else
        { s with pendingEditDraws := n }

/-- Source `_setValue` (lines 422-461).  When both the current and the new value are
non-null and their serialized forms agree (`JSON.stringify(value.toJSON())`,
line 431), the call returns immediately.  Otherwise the value is adopted and
`_updateExpertConstructor` runs; a `null` value clears the formatted value
and redraws, a non-null one dispatches an asynchronous `_formatValue`
request whose `done` continuation is `setFormatDone` below. -/
def setValue (s : VState) (value : Option DataValue) : VState :=
  let adopt : VState :=
    let s1 : VState :=
      { s with value := value, log := s.log ++ [Effect.updateExpertCtor] }
    match value with
    | none => draw { s1 with formattedValue := none }
    | some d => { s1 with log := s1.log ++ [Effect.formatRequest d] }
  match s.value, value with
  | some cur, some nv => if nv.json = cur.json then s else adopt
  | _, _ => adopt

/-- The `done` continuation of the `_formatValue` request dispatched by
`_setValue` (lines 451-454): adopt the formatted value and redraw. -/
def setFormatDone (s : VState) (formatted : String) : VState :=
  draw { s with formattedValue := some formatted }

/-- Inputs of the public `value` method as JavaScript callers can supply
them: no argument (`undefined`), `null`, a `DataValue` instance, or any
other value. -/
inductive JsInput
  | undef
  | jsNull
  | jsDv (d : DataValue)
  | jsOther (desc : String)
deriving DecidableEq, Repr

/-- Result of a `value()` call that did not throw. -/
inductive ValueResult
  | got (v : Option DataValue)
  | setDone
deriving DecidableEq, Repr

/-- Source `value` (lines 385-394): with no argument it returns `_value`; with an
argument that is neither `null` nor a `DataValue` instance it throws before
touching any state; otherwise it delegates to `_setValue`.  The thrown
error's message is returned in the `Except.error` case alongside the
(unchanged) state. -/
def value (s : VState) (x : JsInput) : Except String ValueResult × VState :=
  match x with
  | .undef => (.ok (.got s.value), s)
  | .jsNull => (.ok .setDone, setValue s none)
  | .jsDv d => (.ok .setDone, setValue s (some d))
  | .jsOther _ =>
      (.error "The given value has to be an instance of dataValues.DataValue or null", s)

/-- Source `initialValue` (lines 352-357): outside edit mode the current value,
otherwise the rollback value captured when editing started. -/
def initialValue (s : VState) : Option DataValue :=
  if !s.isInEditMode then s.value else s.initialValue

/-- Source `startEditing` (lines 274-290): a no-op in edit mode; otherwise the
current value is captured as the rollback point, the edit flag is set, the
element's content is replaced by the `$value` viewport
(`element.html(this.$value)`, line 284), and `draw` runs. -/
def startEditing (s : VState) : VState :=
  if s.isInEditMode then s
  else
    draw { s with initialValue := s.value, isInEditMode := true,
                  children := [ElementChild.editable] }

/-- Source `stopEditing` (lines 302-329): a no-op outside edit mode; with
`dropValue` the rollback value is reinstated through `value()` (line 313,
still in edit mode at that point); then the rollback point is cleared, the
edit flag dropped, the expert destroyed, the `$value` viewport detached from
the element (line 323) and `draw` renders the static content. -/
def stopEditing (s : VState) (dropValue : Bool) : VState :=
  if !s.isInEditMode then s
  else
    let s1 := if dropValue then setValue s (initialValue s) else s
    let s2 : VState :=
      { s1 with initialValue := none, isInEditMode := false, expert := none,
                children := s1.children.filter
                  (fun c => c ≠ ElementChild.editable) }
    draw s2

/-- Source `cancelEditing` (lines 335-337): `stopEditing(true)`. -/
def cancelEditing (s : VState) : VState :=
  stopEditing s true

/-- Source `_renderError` (lines 744-748): only when an expert with a `preview` is
present, the preview display is updated with the message. -/
def renderError (s : VState) (message : String) : VState :=
  match s.expert with
  | some e =>
      match e.preview with
      | some _ =>
          { s with expert := some { e with preview := some { content := message } } }
      | none => s
  | none => s

/-- Handler from `_updateValue` for a failed parse promise (lines 730-735):
with a message the value is cleared and the error rendered; without one the
failure is ignored. -/
def onParseFail (s : VState) (message : Option String) : VState :=
  match message with
  | some m => renderError { s with value := none } m
  | none => s

/-- Handler from `_updateValue` for a failed format promise (lines 722-727):
with a message the formatted value is cleared and the error rendered;
without one the failure is ignored. -/
def onFormatFail (s : VState) (message : Option String) : VState :=
  match message with
  | some m => renderError { s with formattedValue := none } m
  | none => s

/-- Source `_create` and `_initValue` (lines 196-219, 402-412): the element may
already contain server-rendered formatted html (`preRendered`); then the
option value and that html are adopted directly and the widget redraws.
Otherwise the option value goes through `value()`.  With `autoStartEditing`
and an empty value, edit mode starts immediately. -/
def createWidget (optValue : Option DataValue) (preRendered : Option String)
    (autoStartEditing : Bool) : VState :=
  let s0 : VState :=
    { value := none, formattedValue := none, textValue := none,
      initialValue := none, isInEditMode := false, expert := none,
      children := match preRendered with
                  | some h => [ElementChild.staticHtml (some h)]
                  | none => [],
      pendingEditDraws := 0, log := [] }
  let s1 :=
    match preRendered with
    | none =>
        (value s0 (match optValue with
                   | some d => JsInput.jsDv d
                   | none => JsInput.jsNull)).2
    | some h =>
        draw { s0 with value := optValue, formattedValue := some h,
                       log := s0.log ++ [Effect.updateExpertCtor] }
  if autoStartEditing && s1.value = none then startEditing s1 else s1

/-- The operations the edit lifecycle is driven by: the public transitions,
redraws, and the completions of the asynchronous continuations they spawn. -/
inductive EditOp
  | start
  | stop (dropValue : Bool)
  | cancel
  | redraw
  | editDrawDone (txt : Option String)
  | formatDone (formatted : String)
deriving DecidableEq, Repr

/-- One lifecycle operation. -/
def stepOp (s : VState) : EditOp → VState
  | .start => startEditing s
  | .stop b => stopEditing s b
  | .cancel => cancelEditing s
  | .redraw => draw s
  | .editDrawDone txt => editDrawComplete s txt
  | .formatDone formatted => setFormatDone s formatted

/-- Run a sequence of lifecycle operations. -/
def runOps (s : VState) (ops : List EditOp) : VState :=
  ops.foldl stepOp s

/-- The widget element never hosts more than one surface. -/
def atMostOneSurface (s : VState) : Prop :=
  s.children.length ≤ 1

/-- The static formatted display and the editable surface are not both
present in the widget's element. -/
def noBothSurfaces (s : VState) : Prop :=
  ¬(ElementChild.editable ∈ s.children
    ∧ ∃ f, ElementChild.staticHtml f ∈ s.children)

end VV

/-- The references held by a `jQuery.valueview.Expert` instance
(src/unnamed/part_001): `$viewPort`, `_viewState`, `_viewNotifier`,
`_messageProvider`, `_options`, each `null`-able, plus the extensions
registered on `_extendable` (identified by opaque ids).  The constructor
(lines 89-126) always populates all five references. -/
structure ExpertRefs where
  viewPort : Option Nat
  viewState : Option Nat
  viewNotifier : Option Nat
  messageProvider : Option Nat
  options : Option Nat
  extensions : List Nat
deriving DecidableEq, Repr

/-- Observable actions performed by `Expert.destroy`: invoking an
extension's `destroy` hook (`_extendable.callExtensions('destroy')`, line
214) and cleaning up the viewport DOM
(`$viewPort.removeClass(uiBaseClass).empty()`, line 215). -/
inductive DestroyEffect
  | extensionDestroyHook (ext : Nat)
  | domCleanup (node : Nat)
deriving DecidableEq, Repr

/-- Source `Expert.destroy` (src/unnamed/part_001, lines 210-221): when `$viewPort`
is already `null` the call returns immediately; otherwise the extension
`destroy` hooks run, the viewport DOM is cleaned up, and the five references
are set to `null` (`_extendable` itself is not cleared). -/
def Expert_destroy (e : ExpertRefs) : ExpertRefs × List DestroyEffect :=
  match e.viewPort with
  | none => (e, [])
  | some vp =>
      ({ viewPort := none, viewState := none, viewNotifier := none,
         messageProvider := none, options := none,
         extensions := e.extensions },
       e.extensions.map DestroyEffect.extensionDestroyHook
         ++ [DestroyEffect.domCleanup vp])

/-- Folding string-raw change notifications only replaces the pending timer
and the `__lastUpdateValue` tag: each change overwrites both with its own raw
value and the configured delay, so after the whole sequence they carry the
last change. -/
lemma rtRun_changes_str (st : RTState) (s : String) (raws : List String) :
    rtRun st ((s :: raws).map (fun r => RTEvent.change (.str r)))
      = { st with parseTimer := some (lastChange s raws, st.parseDelay),
                  lastUpdateValue := some (lastChange s raws) } := by
  induction raws generalizing st s with
  | nil => rfl
  | cons r rest ih =>
      have h1 : rtRun st ((s :: r :: rest).map (fun x => RTEvent.change (.str x)))
          = rtRun (onChange st (.str s))
              ((r :: rest).map (fun x => RTEvent.change (.str x))) := rfl
      rw [h1, ih]
      rfl

/-- C6: a raw value obtained from the Expert that is `null` or already a
`DataValue` bypasses the debounce timer and the parser service entirely:
`_parseValue` resolves its promise with that raw value synchronously, the
pending-timer and dispatched-parse state are untouched, and `_updateValue`'s
continuation accepts the value in the same step. -/
theorem c6_structured_raw_bypasses_parse (st : RTState) (d : DataValue) :
    parseValueStep st .nullRaw
        = ({ st with lastUpdateValue := none }, .resolvedNow none)
    ∧ parseValueStep st (.dvRaw d)
        = ({ st with lastUpdateValue := none }, .resolvedNow (some d))
    ∧ (parseValueStep st .nullRaw).1.parseTimer = st.parseTimer
    ∧ (parseValueStep st (.dvRaw d)).1.parseTimer = st.parseTimer
    ∧ (parseValueStep st .nullRaw).1.inflightParses = st.inflightParses
    ∧ (parseValueStep st (.dvRaw d)).1.inflightParses = st.inflightParses
    ∧ (onChange st .nullRaw).value = none
    ∧ (onChange st (.dvRaw d)).value = some d :=
  ⟨rfl, rfl, rfl, rfl, rfl, rfl, rfl, rfl⟩

/-- C2 counterexample: the claim asserts that EVERY raw-value change
notification cancels the pending parse timer and starts a new one.  A
notification whose raw value is `null` (or a `DataValue`) does neither: after
the change sequence "a" (a string), then `null`, the timer tagged "a" is
still pending, and when it expires the parse for "a" — not for the last
change of the sequence — is dispatched to the parser service. -/
theorem c2_nonstring_raw_skips_debounce_counterexample :
    (rtRun (rtInit 300)
        [.change (.str "a"), .change .nullRaw]).parseTimer = some ("a", 300)
    ∧ (rtRun (rtInit 300)
        [.change (.str "a"), .change .nullRaw, .timerFire]).inflightParses
        = ["a"] := by
  decide

/-- C2 (amended: restricted to notifications whose raw value is a plain
string; `null`/`DataValue` raw values take the synchronous bypass instead):
each string raw-value change notification cancels any pending parse timer
and starts a new timer of `parseDelay` milliseconds (default 300) tagged with
its raw value; across a whole in-window sequence of such changes no parse is
dispatched, and the single expiry afterwards dispatches exactly the parse of
the last change. -/
theorem c2_debounce_last_change_amended (st : RTState) (s : String)
    (raws : List String) :
    onChange st (.str s)
        = { st with parseTimer := some (s, st.parseDelay),
                    lastUpdateValue := some s }
    ∧ rtRun st ((s :: raws).map (fun r => RTEvent.change (.str r)))
        = { st with parseTimer := some (lastChange s raws, st.parseDelay),
                    lastUpdateValue := some (lastChange s raws) }
    ∧ (rtStep (rtRun st ((s :: raws).map (fun r => RTEvent.change (.str r))))
          .timerFire).inflightParses
        = lastChange s raws :: st.inflightParses
    ∧ defaultParseDelay = 300 := by
  refine ⟨rfl, rtRun_changes_str st s raws, ?_, rfl⟩
  rw [rtRun_changes_str st s raws]
  rfl

/-- First value parsed in the C1 counterexample trace ("a"). -/
def dvA : DataValue := { ref := 1, dvType := "string", json := "[a]" }

/-- Second value parsed in the C1 counterexample trace ("b"). -/
def dvB : DataValue := { ref := 2, dvType := "string", json := "[b]" }

/-- C1 counterexample trace: the user types "a", the parse for it completes
and a format request for its value is dispatched; the user then types "b",
whose parse also completes and dispatches a second format request; finally
the FIRST format response arrives (late), echoing the value it was requested
with. -/
def c1Trace : List RTEvent :=
  [ .change (.str "a"), .timerFire, .parseSuccess "a" (some dvA),
    .change (.str "b"), .timerFire, .parseSuccess "b" (some dvB),
    .formatSuccess dvA dvA "formatted-a" ]

/-- C1 counterexample: a format response whose requesting `Value` no longer
matches the widget's latest value is nevertheless applied.  After the first
six events the widget's value is already `dvB` while the format request for
`dvA` is still in flight; when that response arrives, `_formatValue`'s
staleness check compares it only against the value it was requested with
(object identity with the echoed `formattedDataValue`), not against the
current value, so it resolves and `_updateValue` overwrites
`_formattedValue` with the stale result.  This refutes the claim that a
format response whose tag no longer matches the latest state never updates
displayed state. -/
theorem c1_stale_format_applied_counterexample :
    ((rtRun (rtInit 300) (c1Trace.take 6)).value = some dvB
      ∧ dvA ∈ (rtRun (rtInit 300) (c1Trace.take 6)).inflightFormats
      ∧ (rtRun (rtInit 300) (c1Trace.take 6)).formattedValue = none)
    ∧ (rtRun (rtInit 300) c1Trace).value = some dvB
    ∧ (rtRun (rtInit 300) c1Trace).formattedValue = some "formatted-a"
    ∧ dvA ≠ dvB := by
  decide

/-- C1 (amended): staleness filtering as the code implements it.  A
successful parse response whose raw-value tag no longer matches
`__lastUpdateValue` (a newer raw value was observed, or the latest request
was already answered) is discarded and leaves the entire widget state — in
particular `_value`, `_formattedValue` and `_textValue` — unchanged apart
from the request ceasing to be in flight.  A successful format (html or
plain-text) response is discarded exactly when the `Value` echoed by the
formatter is not identical to the `Value` used to request formatting; the
widget's value at arrival time is not consulted, so a format response
matching its own request is applied (it sets `_formattedValue`)
unconditionally. -/
theorem c1_staleness_discard_amended (st : RTState) (raw : String)
    (parsed : Option DataValue) (req echoed : DataValue)
    (formatted txt : String)
    (hstale : st.lastUpdateValue ≠ some raw)
    (hecho : jsIdentical req echoed = false)
    (hin : req ∈ st.inflightFormats) :
    rtStep st (.parseSuccess raw parsed)
        = { st with inflightParses := st.inflightParses.erase raw }
    ∧ rtStep st (.formatSuccess req echoed formatted)
        = { st with inflightFormats := st.inflightFormats.erase req }
    ∧ rtStep st (.textSuccess req echoed txt)
        = { st with inflightTexts := st.inflightTexts.erase req }
    ∧ (rtStep st (.formatSuccess req req formatted)).formattedValue
        = some formatted := by
  refine ⟨?_, ?_, ?_, ?_⟩
  · by_cases hp : raw ∈ st.inflightParses
    · simp [rtStep, hp, onParseSuccess, hstale]
    · simp [rtStep, hp, List.erase_of_not_mem hp]
  · by_cases hf : req ∈ st.inflightFormats
    · simp [rtStep, hf, onFormatSuccess, hecho]
    · simp [rtStep, hf, List.erase_of_not_mem hf]
  · by_cases ht : req ∈ st.inflightTexts
    · simp [rtStep, ht, onTextSuccess, hecho]
    · simp [rtStep, ht, List.erase_of_not_mem ht]
  · simp [rtStep, hin, onFormatSuccess, jsIdentical]

/-- A value used by the C1 witness (object identity 5). -/
def dvW1 : DataValue := { ref := 5, dvType := "time", json := "[t1]" }

/-- A structurally equal value with a different object identity, used as a
mismatching formatter echo in the C1 witness. -/
def dvW2 : DataValue := { ref := 6, dvType := "time", json := "[t1]" }

/-- Concrete controller state for the C1 witness: one parse request tagged
"y" and one format and one text request for `dvW1` are in flight, while the
latest observed raw value is "x". -/
def c1wSt : RTState :=
  { value := some dvW2, formattedValue := some "f0", textValue := some "t0",
    lastUpdateValue := some "x", parseTimer := none,
    inflightParses := ["y"], inflightFormats := [dvW1],
    inflightTexts := [dvW1], parseDelay := 300 }

/-- Witness for C1's amended theorem at a concrete state. -/
theorem c1_staleness_discard_amended_witness :
    (c1wSt.lastUpdateValue ≠ some "y"
      ∧ jsIdentical dvW1 dvW2 = false
      ∧ dvW1 ∈ c1wSt.inflightFormats)
    ∧ (rtStep c1wSt (.parseSuccess "y" (some dvW1))
          = { c1wSt with inflightParses := c1wSt.inflightParses.erase "y" }
      ∧ rtStep c1wSt (.formatSuccess dvW1 dvW2 "fmt")
          = { c1wSt with inflightFormats := c1wSt.inflightFormats.erase dvW1 }
      ∧ rtStep c1wSt (.textSuccess dvW1 dvW2 "txt")
          = { c1wSt with inflightTexts := c1wSt.inflightTexts.erase dvW1 }
      ∧ (rtStep c1wSt (.formatSuccess dvW1 dvW1 "fmt")).formattedValue
          = some "fmt") :=
  ⟨⟨by decide, by decide, by decide⟩,
    c1_staleness_discard_amended c1wSt "y" (some dvW1) dvW1 dvW2 "fmt" "txt"
      (by decide) (by decide) (by decide)⟩

/-- C3: from a state that is not in edit mode (so that `startEditing`
actually captures the current value as the rollback point), `startEditing`
immediately followed by `cancelEditing` (= `stopEditing(true)`) restores the
pre-edit value exactly, under structural equality of the serialized form,
and the widget is back out of edit mode. -/
theorem c3_start_then_cancel_restores_value (s : VV.VState)
    (h : s.isInEditMode = false) :
    ((VV.cancelEditing (VV.startEditing s)).value).map DataValue.json
        = (s.value).map DataValue.json
    ∧ (VV.cancelEditing (VV.startEditing s)).value = s.value
    ∧ (VV.cancelEditing (VV.startEditing s)).isInEditMode = false := by
  cases hv : s.value with
  | none =>
      simp [VV.cancelEditing, VV.startEditing, VV.stopEditing, VV.setValue,
        VV.initialValue, VV.draw, VV.drawStaticContent, h, hv]
  | some v =>
      simp [VV.cancelEditing, VV.startEditing, VV.stopEditing, VV.setValue,
        VV.initialValue, VV.draw, VV.drawStaticContent, h, hv]

/-- Concrete pre-edit state for the C3 witness. -/
def c3wSt : VV.VState :=
  { value := some { ref := 3, dvType := "string", json := "[c3]" },
    formattedValue := some "c3-html", textValue := some "c3",
    initialValue := none, isInEditMode := false, expert := none,
    children := [ElementChild.staticHtml (some "c3-html")],
    pendingEditDraws := 0, log := [] }

/-- Witness for C3 at a concrete state. -/
theorem c3_start_then_cancel_restores_value_witness :
    c3wSt.isInEditMode = false
    ∧ (((VV.cancelEditing (VV.startEditing c3wSt)).value).map DataValue.json
          = (c3wSt.value).map DataValue.json
      ∧ (VV.cancelEditing (VV.startEditing c3wSt)).value = c3wSt.value
      ∧ (VV.cancelEditing (VV.startEditing c3wSt)).isInEditMode = false) :=
  ⟨by decide, c3_start_then_cancel_restores_value c3wSt (by decide)⟩

/-- C7: from an edit-mode state whose accepted value is `v` (as left behind
by a successful parse+format round trip), `stopEditing(false)` commits `v`:
the widget leaves edit mode and `initialValue()` — which outside edit mode
returns the current value — yields `v`. -/
theorem c7_stop_editing_commits_value (s : VV.VState) (v : DataValue)
    (hedit : s.isInEditMode = true) (hval : s.value = some v) :
    (VV.stopEditing s false).isInEditMode = false
    ∧ VV.initialValue (VV.stopEditing s false) = some v := by
  simp [VV.stopEditing, VV.initialValue, VV.draw, VV.drawStaticContent,
    hedit, hval]

/-- Concrete edit-mode state for the C7 witness: the round trip accepted the
value with serialization `[c7]`. -/
def c7wSt : VV.VState :=
  { value := some { ref := 7, dvType := "quantity", json := "[c7]" },
    formattedValue := some "c7-html", textValue := some "c7",
    initialValue := some { ref := 8, dvType := "quantity", json := "[old]" },
    isInEditMode := true, expert := some { preview := some { content := "" } },
    children := [ElementChild.editable], pendingEditDraws := 0, log := [] }

/-- Witness for C7 at a concrete state. -/
theorem c7_stop_editing_commits_value_witness :
    (c7wSt.isInEditMode = true
      ∧ c7wSt.value = some { ref := 7, dvType := "quantity", json := "[c7]" })
    ∧ ((VV.stopEditing c7wSt false).isInEditMode = false
      ∧ VV.initialValue (VV.stopEditing c7wSt false)
          = some { ref := 7, dvType := "quantity", json := "[c7]" }) :=
  ⟨⟨by decide, by decide⟩,
    c7_stop_editing_commits_value c7wSt
      { ref := 7, dvType := "quantity", json := "[c7]" }
      (by decide) (by decide)⟩

/-- C8: calling `value(x)` with an argument that is neither `null` nor a
`DataValue` instance throws immediately and leaves the widget state — the
current value, the formatted value, the edit-mode flag, and every other
field including the effect log — unchanged. -/
theorem c8_value_type_check_throws (s : VV.VState) (desc : String) :
    VV.value s (.jsOther desc)
      = (Except.error
          "The given value has to be an instance of dataValues.DataValue or null",
         s)
    ∧ (VV.value s (.jsOther desc)).2.value = s.value
    ∧ (VV.value s (.jsOther desc)).2.formattedValue = s.formattedValue
    ∧ (VV.value s (.jsOther desc)).2.isInEditMode = s.isInEditMode :=
  ⟨rfl, rfl, rfl, rfl⟩

/-- C9: when the current value is non-null and `value(w)` is called with a
non-null `w` whose JSON serialization equals the current value's,
`_setValue`'s structural-equality guard returns early: the call is a
complete no-op — the stored value object, the formatted value and the expert
are untouched and no `_updateExpertConstructor`, formatter round-trip or
redraw is dispatched (the effect log is unchanged). -/
theorem c9_structural_equal_value_noop (s : VV.VState) (cv w : DataValue)
    (hcur : s.value = some cv) (hjson : w.json = cv.json) :
    VV.value s (.jsDv w) = (Except.ok VV.ValueResult.setDone, s)
    ∧ (VV.value s (.jsDv w)).2.value = some cv
    ∧ (VV.value s (.jsDv w)).2.log = s.log
    ∧ (VV.value s (.jsDv w)).2.expert = s.expert := by
  simp [VV.value, VV.setValue, hcur, hjson]

/-- Concrete state and structurally equal distinct value for the C9
witness: `c9wOther` has a different object identity (and even a different
type string) but the same serialization. -/
def c9wSt : VV.VState :=
  { value := some { ref := 9, dvType := "string", json := "[c9]" },
    formattedValue := some "c9-html", textValue := some "c9",
    initialValue := none, isInEditMode := true,
    expert := some { preview := none },
    children := [ElementChild.editable], pendingEditDraws := 0, log := [] }

/-- A distinct object whose serialized form matches `c9wSt`'s value. -/
def c9wOther : DataValue := { ref := 10, dvType := "string", json := "[c9]" }

/-- Witness for C9 at a concrete state. -/
theorem c9_structural_equal_value_noop_witness :
    (c9wSt.value = some { ref := 9, dvType := "string", json := "[c9]" }
      ∧ c9wOther.json = "[c9]")
    ∧ (VV.value c9wSt (.jsDv c9wOther)
          = (Except.ok VV.ValueResult.setDone, c9wSt)
      ∧ (VV.value c9wSt (.jsDv c9wOther)).2.value
          = some { ref := 9, dvType := "string", json := "[c9]" }
      ∧ (VV.value c9wSt (.jsDv c9wOther)).2.log = c9wSt.log
      ∧ (VV.value c9wSt (.jsDv c9wOther)).2.expert = c9wSt.expert) :=
  ⟨⟨by decide, by decide⟩,
    c9_structural_equal_value_noop c9wSt
      { ref := 9, dvType := "string", json := "[c9]" } c9wOther
      (by decide) (by decide)⟩

/-- C4: when the parser fails with a human-readable message `M` and the
active editing surface (the expert) exposes an error display (its
`preview`), the display receives exactly `M` and the widget's underlying
value is cleared to `null`, the formatted value being left alone; when the
parser or the formatter fails without a message, the failure is silently
ignored — the state is completely unchanged. -/
theorem c4_parse_failure_message_handling (s : VV.VState) (e : ExpertObj)
    (p : Preview) (m : String)
    (hexp : s.expert = some e) (hprev : e.preview = some p) :
    (VV.onParseFail s (some m)).value = none
    ∧ (VV.onParseFail s (some m)).expert
        = some { preview := some { content := m } }
    ∧ (VV.onParseFail s (some m)).formattedValue = s.formattedValue
    ∧ VV.onParseFail s none = s
    ∧ VV.onFormatFail s none = s := by
  simp [VV.onParseFail, VV.onFormatFail, VV.renderError, hexp, hprev]

/-- Concrete edit-mode state with a preview-bearing expert for the C4
witness. -/
def c4wSt : VV.VState :=
  { value := some { ref := 4, dvType := "time", json := "[c4]" },
    formattedValue := some "c4-html", textValue := some "c4",
    initialValue := none, isInEditMode := true,
    expert := some { preview := some { content := "old preview" } },
    children := [ElementChild.editable], pendingEditDraws := 0, log := [] }

/-- Witness for C4 at a concrete state. -/
theorem c4_parse_failure_message_handling_witness :
    (c4wSt.expert = some { preview := some { content := "old preview" } }
      ∧ (ExpertObj.preview { preview := some { content := "old preview" } })
          = some { content := "old preview" })
    ∧ ((VV.onParseFail c4wSt (some "bad input")).value = none
      ∧ (VV.onParseFail c4wSt (some "bad input")).expert
          = some { preview := some { content := "bad input" } }
      ∧ (VV.onParseFail c4wSt (some "bad input")).formattedValue
          = c4wSt.formattedValue
      ∧ VV.onParseFail c4wSt none = c4wSt
      ∧ VV.onFormatFail c4wSt none = c4wSt) :=
  ⟨⟨by decide, by decide⟩,
    c4_parse_failure_message_handling c4wSt
      { preview := some { content := "old preview" } }
      { content := "old preview" } "bad input" (by decide) (by decide)⟩

/-- Every lifecycle operation leaves at most one surface in the widget's
element: `startEditing` replaces the content wholesale by the `$value`
viewport, leaving edit mode always ends in `drawStaticContent`, which
replaces the content wholesale by the formatted value, and the remaining
operations either re-render statically or do not touch the element's
children. -/
lemma stepOp_at_most_one_surface (s : VV.VState) (op : VV.EditOp)
    (h : s.children.length ≤ 1) : (VV.stepOp s op).children.length ≤ 1 := by
  cases op with
  | start =>
      by_cases he : s.isInEditMode
      · simpa [VV.stepOp, VV.startEditing, he] using h
      · simp [VV.stepOp, VV.startEditing, VV.draw, he]
  | stop b =>
      by_cases he : s.isInEditMode
      · simp [VV.stepOp, VV.stopEditing, VV.draw, VV.drawStaticContent, he]
      · simpa [VV.stepOp, VV.stopEditing, he] using h
  | cancel =>
      by_cases he : s.isInEditMode
      · simp [VV.stepOp, VV.cancelEditing, VV.stopEditing, VV.draw,
          VV.drawStaticContent, he]
      · simpa [VV.stepOp, VV.cancelEditing, VV.stopEditing, he] using h
  | redraw =>
      by_cases he : s.isInEditMode
      · simpa [VV.stepOp, VV.draw, he] using h
      · simp [VV.stepOp, VV.draw, VV.drawStaticContent, he]
  | editDrawDone txt =>
      cases hp : s.pendingEditDraws with
      | zero => simpa [VV.stepOp, VV.editDrawComplete, hp] using h
      | succ n =>
          by_cases he : s.isInEditMode
          · simpa [VV.stepOp, VV.editDrawComplete, hp, he] using h
          · simpa [VV.stepOp, VV.editDrawComplete, hp, he] using h
  | formatDone formatted =>
      by_cases he : s.isInEditMode
      · simpa [VV.stepOp, VV.setFormatDone, VV.draw, he] using h
      · simp [VV.stepOp, VV.setFormatDone, VV.draw, VV.drawStaticContent, he]

/-- Folding lifecycle operations preserves the at-most-one-surface bound. -/
lemma runOps_at_most_one_surface (s : VV.VState) (ops : List VV.EditOp)
    (h : s.children.length ≤ 1) :
    (VV.runOps s ops).children.length ≤ 1 := by
  induction ops generalizing s with
  | nil => exact h
  | cons op rest ih =>
      exact ih (VV.stepOp s op) (stepOp_at_most_one_surface s op h)

/-- A freshly created widget hosts at most one surface. -/
lemma createWidget_at_most_one_surface (optValue : Option DataValue)
    (preRendered : Option String) (autoStartEditing : Bool) :
    (VV.createWidget optValue preRendered autoStartEditing).children.length
      ≤ 1 := by
  cases preRendered with
  | some h =>
      cases optValue <;> cases autoStartEditing <;>
        simp [VV.createWidget, VV.startEditing, VV.draw, VV.drawStaticContent]
  | none =>
      cases optValue with
      | none =>
          cases autoStartEditing <;>
            simp [VV.createWidget, VV.value, VV.setValue, VV.startEditing,
              VV.draw, VV.drawStaticContent]
      | some d =>
          cases autoStartEditing <;>
            simp [VV.createWidget, VV.value, VV.setValue, VV.startEditing,
              VV.draw, VV.drawStaticContent]

/-- A list holding at most one element cannot contain both the editable
viewport and a static rendering. -/
lemma not_both_of_length_le_one {l : List ElementChild}
    (h : l.length ≤ 1) (h1 : ElementChild.editable ∈ l) {f : Option String}
    (h2 : ElementChild.staticHtml f ∈ l) : False := by
  match l, h with
  | [], _ => exact absurd h1 (List.not_mem_nil _)
  | [x], _ =>
      have e1 : ElementChild.editable = x := List.mem_singleton.mp h1
      have e2 : ElementChild.staticHtml f = x := List.mem_singleton.mp h2
      rw [← e1] at e2
      exact ElementChild.noConfusion e2
  | x :: y :: rest, h => simp at h

/-- C5: in every state reachable from widget creation by any sequence of
`startEditing` / `stopEditing` / `cancelEditing` / `draw` operations
(including the completions of the asynchronous continuations they spawn),
the static formatted display and the editable surface are never both present
in the widget's element. -/
theorem c5_never_both_surfaces (optValue : Option DataValue)
    (preRendered : Option String) (autoStartEditing : Bool)
    (ops : List VV.EditOp) :
    VV.noBothSurfaces
      (VV.runOps (VV.createWidget optValue preRendered autoStartEditing)
        ops) := by
  intro hboth
  obtain ⟨h1, f, h2⟩ := hboth
  exact not_both_of_length_le_one
    (runOps_at_most_one_surface _ ops
      (createWidget_at_most_one_surface optValue preRendered autoStartEditing))
    h1 h2

/-- C10: `Expert.destroy` is idempotent.  Destroying a live expert (one
whose viewport reference is populated, as the constructor guarantees) nulls
all five references — viewport, view state, notifier, message provider,
options; a second `destroy`, finding the viewport reference `null`, returns
immediately with no extension destroy hooks and no DOM cleanup (and, being a
total function of the state, without throwing), and in general `destroy` on
any already-destroyed expert is such a no-op. -/
theorem c10_expert_destroy_idempotent (e : ExpertRefs) (vp : Nat)
    (h : e.viewPort = some vp) :
    (Expert_destroy e).1.viewPort = none
    ∧ (Expert_destroy e).1.viewState = none
    ∧ (Expert_destroy e).1.viewNotifier = none
    ∧ (Expert_destroy e).1.messageProvider = none
    ∧ (Expert_destroy e).1.options = none
    ∧ Expert_destroy (Expert_destroy e).1 = ((Expert_destroy e).1, [])
    ∧ (∀ e2 : ExpertRefs, e2.viewPort = none → Expert_destroy e2 = (e2, [])) := by
  refine ⟨?_, ?_, ?_, ?_, ?_, ?_, ?_⟩
  · simp [Expert_destroy, h]
  · simp [Expert_destroy, h]
  · simp [Expert_destroy, h]
  · simp [Expert_destroy, h]
  · simp [Expert_destroy, h]
  · simp [Expert_destroy, h]
  · intro e2 h2
    simp [Expert_destroy, h2]

/-- Concrete live expert for the C10 witness. -/
def c10wExpert : ExpertRefs :=
  { viewPort := some 100, viewState := some 101, viewNotifier := some 102,
    messageProvider := some 103, options := some 104, extensions := [1, 2] }

/-- Witness for C10 at a concrete expert. -/
theorem c10_expert_destroy_idempotent_witness :
    c10wExpert.viewPort = some 100
    ∧ ((Expert_destroy c10wExpert).1.viewPort = none
      ∧ (Expert_destroy c10wExpert).1.viewState = none
      ∧ (Expert_destroy c10wExpert).1.viewNotifier = none
      ∧ (Expert_destroy c10wExpert).1.messageProvider = none
      ∧ (Expert_destroy c10wExpert).1.options = none
      ∧ Expert_destroy (Expert_destroy c10wExpert).1
          = ((Expert_destroy c10wExpert).1, [])
      ∧ (∀ e2 : ExpertRefs, e2.viewPort = none
          → Expert_destroy e2 = (e2, []))) :=
  ⟨by decide, c10_expert_destroy_idempotent c10wExpert 100 (by decide)⟩
